import Mathlib

/-!
Shallow embedding of the billing/manufacturing backend's ledger core:
the settlement engine and payment processing (`app/ledger_service.py`),
the stock-movement audit trail (`app/stock_movement_service.py`),
the sale mutator (`app/routers/invoices.py`) and the production mutator
(`app/services.py`).  Monetary and float-typed quantities are modelled
as exact rationals, integer columns as `Int`, timestamps as `Nat`,
nullable string columns as `Option String`, and SQLAlchemy rows as
Lean structures held in lists inside a `DBState` record.
-/

namespace BillingSaas

/-- Python truthiness of an optional string value: `None` and the empty
string are falsy, every other string is truthy. -/
def truthy : Option String → Bool
  | none => false
  | some s => !s.isEmpty

/-- Rounding of a rational to the nearest integer with ties to even,
matching Python `round` semantics on exactly-representable values. -/
def pyRound (q : ℚ) : ℤ :=
  let f := ⌊q⌋
  if q - (f : ℚ) < 1/2 then f
  else if (1 : ℚ)/2 < q - (f : ℚ) then f + 1
  else if f % 2 = 0 then f else f + 1

/-- Python `round(x, 2)` (two decimal places, ties to even). -/
def round2 (q : ℚ) : ℚ := (pyRound (q * 100) : ℚ) / 100

/-- Zero-padded five-digit rendering used by `"%05d"`-style document
numbers (`INV-00001`, `PO-00001`, `BATCH-00001`). -/
def pad5 (n : ℕ) : String :=
  let s := toString n
  String.mk (List.replicate (5 - s.length) '0') ++ s

/-- Row of the `customers` table (fields the ledger core reads). -/
structure Customer where
  id : String
  company_id : String
  name : String := ""
  deriving Repr, DecidableEq

/-- Row of the `suppliers` table (fields the ledger core reads). -/
structure Supplier where
  id : String
  company_id : String
  name : String := ""
  deriving Repr, DecidableEq

/-- Row of the `products` table; `stock` is an integer column. -/
structure Product where
  id : String
  company_id : String
  name : String := ""
  price : ℚ := 0
  stock : ℤ := 0
  deriving Repr, DecidableEq

/-- Row of the `raw_materials` table; stock and cost are float columns. -/
structure RawMaterial where
  id : String
  company_id : String
  name : String := ""
  stock_quantity : ℚ := 0
  cost_price : ℚ := 0
  deriving Repr, DecidableEq

/-- Row of the `invoices` table. -/
structure Invoice where
  id : String
  company_id : String
  customer_id : Option String := none
  invoice_number : String := ""
  customer_name : String := ""
  subtotal : ℚ := 0
  tax_percent : ℚ := 0
  tax_amount : ℚ := 0
  discount : ℚ := 0
  total : ℚ := 0
  status : String := "unpaid"
  created_at : ℕ := 0
  deriving Repr, DecidableEq

/-- Row of the `invoice_items` table. -/
structure InvoiceItem where
  invoice_id : String
  product_id : String
  product_name : String
  quantity : ℤ
  unit_price : ℚ
  total_price : ℚ
  deriving Repr, DecidableEq

/-- Row of the `purchases` table. -/
structure Purchase where
  id : String
  company_id : String
  supplier_id : String
  purchase_number : String := ""
  total_amount : ℚ := 0
  status : String := "unpaid"
  created_at : ℕ := 0
  deriving Repr, DecidableEq

/-- Row of the `payments` table.  The id and timestamp are generated by
the database; the model fills them with inert defaults. -/
structure Payment where
  id : String := ""
  company_id : String := ""
  customer_id : Option String := none
  invoice_id : Option String := none
  supplier_id : Option String := none
  purchase_id : Option String := none
  amount : ℚ := 0
  payment_type : String := "received"
  payment_method : String := "cash"
  notes : Option String := none
  created_at : ℕ := 0
  deriving Repr, DecidableEq

/-- Row of the `stock_movements` table. -/
structure StockMovement where
  company_id : String
  product_id : Option String := none
  raw_material_id : Option String := none
  movement_type : String
  quantity_change : ℚ
  reference_type : String
  reference_id : String
  notes : Option String := none
  deriving Repr, DecidableEq

/-- Row of the `production_batches` table. -/
structure ProductionBatch where
  id : String
  company_id : String
  batch_number : String
  finished_product_id : String
  quantity_produced : ℤ
  total_cost : ℚ := 0
  cost_per_unit : ℚ := 0
  notes : Option String := none
  deriving Repr, DecidableEq

/-- Row of the `production_items` table. -/
structure ProductionItem where
  production_batch_id : String
  raw_material_id : String
  raw_material_name : String
  quantity_used : ℚ
  deriving Repr, DecidableEq

/-- Errors surfaced by the service layer (`HTTPException` / `ValueError`
sites), carrying the data the corresponding detail strings report. -/
inductive Err where
  | notFound (detail : String)
  | ownership (detail : String)
  | overpayment (total alreadyPaid maxPayable : ℚ)
  | insufficientStock (name : String) (available : ℤ)
  | insufficientMaterial (name : String) (available required : ℚ)
  | validation (detail : String)
  deriving Repr, DecidableEq

/-- The tenant-shared database contents relevant to the ledger core. -/
structure DBState where
  customers : List Customer := []
  suppliers : List Supplier := []
  products : List Product := []
  rawMaterials : List RawMaterial := []
  invoices : List Invoice := []
  invoiceItems : List InvoiceItem := []
  purchases : List Purchase := []
  payments : List Payment := []
  movements : List StockMovement := []
  batches : List ProductionBatch := []
  productionItems : List ProductionItem := []
  deriving Repr, DecidableEq

/-- Modelled from the spec: the repository imports `app.database`
(`get_db`, the session/transaction provider) but that module is not in
the source tree.  Per the spec, every mutating endpoint runs inside one
transaction and "any exception inside a multi-step mutator aborts the
whole transaction — there is no partial-commit path", so a request that
raises leaves the persisted state unchanged. -/
def runTx {α : Type} (st : DBState) (act : Except Err (DBState × α)) :
    DBState × Except Err α :=
  match act with
  | .ok (st2, a) => (st2, .ok a)
  | .error e => (st, .error e)

/-- Lookup mirroring `db.query(Customer).filter(id, company_id).first()`. -/
def findCustomer (st : DBState) (company_id cid : String) : Option Customer :=
  st.customers.find? (fun c => c.id == cid && c.company_id == company_id)

/-- Lookup mirroring `db.query(Supplier).filter(id, company_id).first()`. -/
def findSupplier (st : DBState) (company_id sid : String) : Option Supplier :=
  st.suppliers.find? (fun s => s.id == sid && s.company_id == company_id)

/-- Lookup mirroring `db.query(Invoice).filter(id, company_id).first()`. -/
def findInvoice (st : DBState) (company_id iid : String) : Option Invoice :=
  st.invoices.find? (fun i => i.id == iid && i.company_id == company_id)

/-- Lookup mirroring `db.query(Purchase).filter(id, company_id).first()`. -/
def findPurchase (st : DBState) (company_id pid : String) : Option Purchase :=
  st.purchases.find? (fun p => p.id == pid && p.company_id == company_id)

/-- Lookup mirroring `db.query(Product).filter(id, company_id).first()`. -/
def findProduct (products : List Product) (company_id pid : String) : Option Product :=
  products.find? (fun p => p.id == pid && p.company_id == company_id)

/-- Lookup mirroring `db.query(RawMaterial).filter(id, company_id).first()`. -/
def findRawMaterial (rms : List RawMaterial) (company_id rid : String) : Option RawMaterial :=
  rms.find? (fun r => r.id == rid && r.company_id == company_id)

/-- Sum of `Payment.amount` over the rows kept by a filter, mirroring
`func.coalesce(func.sum(Payment.amount), 0)` over a filtered query. -/
def paymentSum (ps : List Payment) (keep : Payment → Bool) : ℚ :=
  ((ps.filter keep).map Payment.amount).sum

/-- Sum of `received` payments recorded against an invoice. -/
def invoiceReceived (ps : List Payment) (iid : String) : ℚ :=
  paymentSum ps (fun p => p.invoice_id == some iid && p.payment_type == "received")

/-- Sum of `refund` payments recorded against an invoice. -/
def invoiceRefunded (ps : List Payment) (iid : String) : ℚ :=
  paymentSum ps (fun p => p.invoice_id == some iid && p.payment_type == "refund")

/-- Net amount paid on an invoice: received minus refunded. -/
def invoiceNetPaid (ps : List Payment) (iid : String) : ℚ :=
  invoiceReceived ps iid - invoiceRefunded ps iid

/-- Sum of `paid` payments recorded against a purchase. -/
def purchasePaid (ps : List Payment) (pid : String) : ℚ :=
  paymentSum ps (fun p => p.purchase_id == some pid && p.payment_type == "paid")

/-- Sum of `supplier_refund` payments recorded against a purchase. -/
def purchaseRefunded (ps : List Payment) (pid : String) : ℚ :=
  paymentSum ps (fun p => p.purchase_id == some pid && p.payment_type == "supplier_refund")

/-- Net amount paid on a purchase: paid minus supplier-refunded. -/
def purchaseNetPaid (ps : List Payment) (pid : String) : ℚ :=
  purchasePaid ps pid - purchaseRefunded ps pid

/-- Status recomputation for one invoice, the body of
`_update_invoice_status` in `app/ledger_service.py`. -/
def settleInvoice (ps : List Payment) (inv : Invoice) : Invoice :=
  if invoiceNetPaid ps inv.id ≥ inv.total then { inv with status := "paid" }
  else if invoiceNetPaid ps inv.id > 0 then { inv with status := "partially_paid" }
  else { inv with status := "unpaid" }

/-- Status recomputation for one purchase, the body of
`_update_purchase_status` in `app/ledger_service.py`. -/
def settlePurchase (ps : List Payment) (pur : Purchase) : Purchase :=
  if purchaseNetPaid ps pur.id ≥ pur.total_amount then { pur with status := "paid" }
  else if purchaseNetPaid ps pur.id > 0 then { pur with status := "partially_paid" }
  else { pur with status := "unpaid" }

/-- Model of `_update_invoice_status`: re-query the invoice by id (no
tenant filter, returning silently when absent) and write the recomputed
status. -/
def update_invoice_status_calc (st : DBState) (iid : String) : DBState :=
  match st.invoices.find? (fun i => i.id == iid) with
  | none => st
  | some _ =>
    let invs := st.invoices.map (fun i => if i.id == iid then settleInvoice st.payments i else i)
    { st with invoices := invs }

/-- Model of `_update_purchase_status`. -/
def update_purchase_status_calc (st : DBState) (pid : String) : DBState :=
  match st.purchases.find? (fun p => p.id == pid) with
  | none => st
  | some _ =>
    let purs := st.purchases.map (fun p => if p.id == pid then settlePurchase st.payments p else p)
    { st with purchases := purs }

/-- Request body `PaymentCreate` from `app/schemas.py`; note that
`amount` is an unconstrained float. -/
structure PaymentCreate where
  customer_id : String
  invoice_id : Option String := none
  amount : ℚ
  payment_type : String := "received"
  payment_method : String := "cash"
  notes : Option String := none
  deriving Repr, DecidableEq

/-- Request body `SupplierPaymentCreate` from `app/schemas.py`. -/
structure SupplierPaymentCreate where
  supplier_id : String
  purchase_id : Option String := none
  amount : ℚ
  payment_method : String := "bank"
  notes : Option String := none
  deriving Repr, DecidableEq

/-- Invoice-side validations of `receive_payment`: the `if data.invoice_id:`
block of `app/ledger_service.py`, covering existence, ownership and the
overpayment guard. -/
def checkInvoiceForPayment (st : DBState) (company_id : String)
    (data : PaymentCreate) : Except Err Unit :=
  if truthy data.invoice_id then
    match data.invoice_id with
    | none => .ok ()
    | some iid =>
      match findInvoice st company_id iid with
      | none => .error (.notFound "Invoice not found")
      | some invoice =>
        if truthy invoice.customer_id ∧ invoice.customer_id ≠ some data.customer_id then
          .error (.ownership "Invoice does not belong to this customer")
        else
          if data.payment_type = "received" ∧
              invoiceNetPaid st.payments iid + data.amount > invoice.total then
            .error (.overpayment invoice.total (invoiceNetPaid st.payments iid)
              (invoice.total - invoiceNetPaid st.payments iid))
          else .ok ()
  else .ok ()

/-- Payment row constructed by `receive_payment`. -/
def mkPayment (company_id : String) (data : PaymentCreate) : Payment :=
  { company_id := company_id, customer_id := some data.customer_id,
    invoice_id := data.invoice_id, amount := data.amount,
    payment_type := data.payment_type, payment_method := data.payment_method,
    notes := data.notes }

/-- Model of `receive_payment` from `app/ledger_service.py`. -/
def receive_payment (st : DBState) (company_id : String)
    (data : PaymentCreate) : Except Err (DBState × Payment) :=
  match findCustomer st company_id data.customer_id with
  | none => .error (.notFound "Customer not found")
  | some _ =>
    match checkInvoiceForPayment st company_id data with
    | .error e => .error e
    | .ok _ =>
      let st2 := { st with payments := st.payments ++ [mkPayment company_id data] }
      let st3 :=
        if truthy data.invoice_id then
          match data.invoice_id with
          | some iid => update_invoice_status_calc st2 iid
          | none => st2
        else st2
      .ok (st3, mkPayment company_id data)

/-- Purchase-side validations of `pay_supplier`: existence, ownership and
the (type-unconditional) overpayment guard. -/
def checkPurchaseForPayment (st : DBState) (company_id : String)
    (data : SupplierPaymentCreate) : Except Err Unit :=
  if truthy data.purchase_id then
    match data.purchase_id with
    | none => .ok ()
    | some pid =>
      match findPurchase st company_id pid with
      | none => .error (.notFound "Purchase not found")
      | some purchase =>
        if purchase.supplier_id ≠ data.supplier_id then
          .error (.ownership "Purchase does not belong to this supplier")
        else
          if purchaseNetPaid st.payments pid + data.amount > purchase.total_amount then
            .error (.overpayment purchase.total_amount (purchaseNetPaid st.payments pid)
              (purchase.total_amount - purchaseNetPaid st.payments pid))
          else .ok ()
  else .ok ()

/-- Model of `pay_supplier` from `app/ledger_service.py`; the payment
type is hard-coded to `"paid"`. -/
def pay_supplier (st : DBState) (company_id : String)
    (data : SupplierPaymentCreate) : Except Err (DBState × Payment) :=
  match findSupplier st company_id data.supplier_id with
  | none => .error (.notFound "Supplier not found")
  | some _ =>
    match checkPurchaseForPayment st company_id data with
    | .error e => .error e
    | .ok _ =>
      let payment : Payment :=
        { company_id := company_id, supplier_id := some data.supplier_id,
          purchase_id := data.purchase_id, amount := data.amount,
          payment_type := "paid", payment_method := data.payment_method,
          notes := data.notes }
      let st2 := { st with payments := st.payments ++ [payment] }
      let st3 :=
        if truthy data.purchase_id then
          match data.purchase_id with
          | some pid => update_purchase_status_calc st2 pid
          | none => st2
        else st2
      .ok (st3, payment)

/-- Valid movement kinds from `app/stock_movement_service.py`. -/
def VALID_MOVEMENT_TYPES : List String :=
  ["purchase", "production_in", "production_out", "sale", "adjustment"]

/-- Row constructed by `log_stock_movement` on success. -/
def mkStockMovement (company_id : String) (product_id raw_material_id : Option String)
    (movement_type : String) (quantity_change : ℚ)
    (reference_type reference_id : String) (notes : Option String) : StockMovement :=
  { company_id := company_id, product_id := product_id,
    raw_material_id := raw_material_id, movement_type := movement_type,
    quantity_change := quantity_change, reference_type := reference_type,
    reference_id := reference_id, notes := notes }

/-- Model of `log_stock_movement`: validates the movement type, then the
XOR of `product_id`/`raw_material_id` (Python truthiness), and stages —
never commits — exactly one row in the caller's transaction, returned
here as the extended staged-row list plus the new row. -/
def log_stock_movement (movements : List StockMovement) (company_id : String)
    (product_id raw_material_id : Option String) (movement_type : String)
    (quantity_change : ℚ) (reference_type reference_id : String)
    (notes : Option String) : Except Err (List StockMovement × StockMovement) :=
  if movement_type ∉ VALID_MOVEMENT_TYPES then
    .error (.validation ("Invalid movement_type " ++ movement_type))
  else if truthy product_id && truthy raw_material_id then
    .error (.validation "Cannot set both product_id and raw_material_id")
  else if !truthy product_id && !truthy raw_material_id then
    .error (.validation "Must set either product_id or raw_material_id")
  else
    let movement := mkStockMovement company_id product_id raw_material_id
      movement_type quantity_change reference_type reference_id notes
    .ok (movements ++ [movement], movement)

/-- Line item of `InvoiceItemCreate` (`quantity` is an int column). -/
structure SaleItem where
  product_id : String
  quantity : ℤ
  deriving Repr, DecidableEq

/-- Request body `InvoiceCreate` from `app/schemas.py`. -/
structure InvoiceCreate where
  customer_name : String := ""
  customer_id : Option String := none
  customer_email : Option String := none
  customer_phone : Option String := none
  tax_percent : ℚ := 0
  discount : ℚ := 0
  notes : Option String := none
  items : List SaleItem
  deriving Repr, DecidableEq

/-- Mutable loop state of the sale loop in `create_invoice`. -/
structure SaleLoopState where
  products : List Product
  movements : List StockMovement
  invoiceItems : List InvoiceItem
  subtotal : ℚ
  deriving Repr, DecidableEq

/-- Per-line-item loop of `create_invoice` (`app/routers/invoices.py`):
look the product up, guard the stock, deduct it, stage the invoice item
and log one `sale` movement through `log_stock_movement`. -/
def sellItems (company_id invoice_id invoice_number : String) :
    SaleLoopState → List SaleItem → Except Err SaleLoopState
  | s, [] => .ok s
  | s, it :: rest =>
    match findProduct s.products company_id it.product_id with
    | none => .error (.notFound ("Product " ++ it.product_id ++ " not found"))
    | some product =>
      if product.stock < it.quantity then
        .error (.insufficientStock product.name product.stock)
      else
        let line_total := product.price * (it.quantity : ℚ)
        let row : InvoiceItem :=
          { invoice_id := invoice_id, product_id := product.id,
            product_name := product.name, quantity := it.quantity,
            unit_price := product.price, total_price := line_total }
        let products2 := s.products.map
          (fun q => if q.id == product.id && q.company_id == company_id then { q with stock := q.stock - it.quantity } else q)
        match log_stock_movement s.movements company_id (some product.id) none
            "sale" (-(it.quantity : ℚ)) "invoice" invoice_id
            (some ("Sold via " ++ invoice_number)) with
        | .error e => .error e
        | .ok (movs2, _) =>
          sellItems company_id invoice_id invoice_number
            { products := products2, movements := movs2,
              invoiceItems := s.invoiceItems ++ [row],
              subtotal := s.subtotal + line_total } rest

/-- Model of `_next_invoice_number`: count this tenant's invoices. -/
def next_invoice_number (st : DBState) (company_id : String) : String :=
  "INV-" ++ pad5 ((st.invoices.filter (fun i => i.company_id == company_id)).length + 1)

/-- Customer resolution step of `create_invoice`: a truthy customer id
must exist within the tenant and overwrites the denormalized name. -/
def resolveCustomer (st : DBState) (company_id : String)
    (payload : InvoiceCreate) : Except Err (Option String × String) :=
  if truthy payload.customer_id then
    match payload.customer_id with
    | none => .ok (none, payload.customer_name)
    | some cid =>
      match findCustomer st company_id cid with
      | none => .error (.notFound "Customer not found")
      | some cust => .ok (some cid, cust.name)
  else .ok (payload.customer_id, payload.customer_name)

/-- Model of `create_invoice` from `app/routers/invoices.py`.  The
database-generated invoice id is modelled deterministically from the
generated invoice number. -/
def create_invoice (st : DBState) (company_id : String)
    (payload : InvoiceCreate) : Except Err (DBState × Invoice) :=
  if payload.items = [] then
    .error (.validation "Invoice must have at least one item")
  else
    match resolveCustomer st company_id payload with
    | .error e => .error e
    | .ok (customer_id, customer_name) =>
      let invoice_number := next_invoice_number st company_id
      let invoice : Invoice :=
        { id := "uuid-" ++ invoice_number, company_id := company_id,
          customer_id := customer_id, invoice_number := invoice_number,
          customer_name := customer_name, tax_percent := payload.tax_percent,
          discount := payload.discount }
      match sellItems company_id invoice.id invoice_number
          ⟨st.products, st.movements, st.invoiceItems, 0⟩ payload.items with
      | .error e => .error e
      | .ok s =>
        let tax_amount := s.subtotal * (payload.tax_percent / 100)
        let total := s.subtotal + tax_amount - payload.discount
        let invoice2 := { invoice with subtotal := s.subtotal, tax_amount := tax_amount, total := total }
        let st2 := { st with products := s.products, movements := s.movements, invoiceItems := s.invoiceItems, invoices := st.invoices ++ [invoice2] }
        .ok (st2, invoice2)

/-- Line item of `ProductionItemCreate` (`quantity_used` is a float). -/
structure ProductionItemReq where
  raw_material_id : String
  quantity_used : ℚ
  deriving Repr, DecidableEq

/-- Request body `ProductionBatchCreate` from `app/schemas.py`. -/
structure ProductionBatchCreate where
  finished_product_id : String
  quantity_produced : ℤ
  notes : Option String := none
  items : List ProductionItemReq
  deriving Repr, DecidableEq

/-- Mutable loop state of the consumption loop in
`create_production_batch`. -/
structure ProdLoopState where
  rawMaterials : List RawMaterial
  movements : List StockMovement
  productionItems : List ProductionItem
  total_cost : ℚ
  deriving Repr, DecidableEq

/-- Per-consumed-material loop of `create_production_batch`
(`app/services.py`): look the material up, guard the stock, deduct it,
accumulate cost at the material's current `cost_price`, stage the
production item and log one `production_out` movement. -/
def consumeItems (company_id batch_id batch_number product_name : String) :
    ProdLoopState → List ProductionItemReq → Except Err ProdLoopState
  | s, [] => .ok s
  | s, it :: rest =>
    match findRawMaterial s.rawMaterials company_id it.raw_material_id with
    | none => .error (.notFound ("Raw material " ++ it.raw_material_id ++ " not found"))
    | some raw_mat =>
      if raw_mat.stock_quantity < it.quantity_used then
        .error (.insufficientMaterial raw_mat.name raw_mat.stock_quantity it.quantity_used)
      else
        let rms2 := s.rawMaterials.map
          (fun r => if r.id == raw_mat.id && r.company_id == company_id then { r with stock_quantity := r.stock_quantity - it.quantity_used } else r)
        let item_cost := it.quantity_used * raw_mat.cost_price
        let row : ProductionItem :=
          { production_batch_id := batch_id, raw_material_id := raw_mat.id,
            raw_material_name := raw_mat.name, quantity_used := it.quantity_used }
        match log_stock_movement s.movements company_id none (some raw_mat.id)
            "production_out" (-it.quantity_used) "production_batch" batch_id
            (some ("Used in " ++ batch_number ++ " for " ++ product_name)) with
        | .error e => .error e
        | .ok (movs2, _) =>
          consumeItems company_id batch_id batch_number product_name
            { rawMaterials := rms2, movements := movs2,
              productionItems := s.productionItems ++ [row],
              total_cost := s.total_cost + item_cost } rest

/-- Batch number generated by `create_production_batch`: count this
tenant's batches. -/
def next_batch_number (st : DBState) (company_id : String) : String :=
  "BATCH-" ++ pad5 ((st.batches.filter (fun b => b.company_id == company_id)).length + 1)

/-- Model of `create_production_batch` from `app/services.py`.  The
database-generated batch id is modelled deterministically from the
generated batch number. -/
def create_production_batch (st : DBState) (company_id : String)
    (data : ProductionBatchCreate) : Except Err (DBState × ProductionBatch) :=
  match findProduct st.products company_id data.finished_product_id with
  | none => .error (.notFound "Finished product not found")
  | some product =>
    if data.items = [] then
      .error (.validation "At least one raw material item is required")
    else if data.quantity_produced ≤ 0 then
      .error (.validation "Quantity produced must be positive")
    else
      let batch_number := next_batch_number st company_id
      let batch_id := "uuid-" ++ batch_number
      match consumeItems company_id batch_id batch_number product.name
          ⟨st.rawMaterials, st.movements, st.productionItems, 0⟩ data.items with
      | .error e => .error e
      | .ok s =>
        let products2 := st.products.map
          (fun q => if q.id == product.id && q.company_id == company_id then { q with stock := q.stock + data.quantity_produced } else q)
        let batch : ProductionBatch :=
          { id := batch_id, company_id := company_id, batch_number := batch_number,
            finished_product_id := data.finished_product_id,
            quantity_produced := data.quantity_produced, total_cost := s.total_cost,
            cost_per_unit := round2 (s.total_cost / (data.quantity_produced : ℚ)),
            notes := data.notes }
        match log_stock_movement s.movements company_id (some product.id) none
            "production_in" ((data.quantity_produced : ℚ)) "production_batch"
            batch_id (some ("Produced in " ++ batch_number)) with
        | .error e => .error e
        | .ok (movs3, _) =>
          let st2 := { st with products := products2, rawMaterials := s.rawMaterials, movements := movs3, productionItems := s.productionItems, batches := st.batches ++ [batch] }
          .ok (st2, batch)

/-- Statuses accepted by the `pattern` of the PATCH
`/api/invoices/{invoice_id}/status` query parameter. -/
def statusPattern : List String := ["unpaid", "partially_paid", "paid", "cancelled"]

/-- Model of the `update_invoice_status` endpoint
(`app/routers/invoices.py`): after the query-parameter pattern check it
writes `new_status` straight onto the invoice, with no payment write and
no settlement recomputation. -/
def update_invoice_status (st : DBState) (company_id invoice_id new_status : String) :
    Except Err (DBState × String) :=
  if new_status ∈ statusPattern then
    match findInvoice st company_id invoice_id with
    | none => .error (.notFound "Invoice not found")
    | some _ =>
      let invs := st.invoices.map (fun i => if i.id == invoice_id && i.company_id == company_id then { i with status := new_status } else i)
      .ok ({ st with invoices := invs }, new_status)
  else .error (.validation "new_status does not match the status pattern")

/-- Row of the `transactions` list built by `get_customer_ledger`; the
`ty` field carries the `"type"` key of the source dict.  `sort_key` is
the `created_at` timestamp the list is sorted by, and `running_balance`
is stamped in a second pass. -/
structure LedgerEntry where
  date : ℕ
  ty : String
  reference : String
  debit : ℚ
  credit : ℚ
  sort_key : ℕ
  running_balance : ℚ := 0
  deriving Repr, DecidableEq

/-- Chronological order on statement rows. -/
def entryLE (a b : LedgerEntry) : Prop := a.sort_key ≤ b.sort_key

instance : DecidableRel entryLE := fun a b => Nat.decLe a.sort_key b.sort_key

instance : IsTotal LedgerEntry entryLE := ⟨fun a b => Nat.le_total a.sort_key b.sort_key⟩

instance : IsTrans LedgerEntry entryLE := ⟨fun _ _ _ h h2 => Nat.le_trans h h2⟩

/-- Chronological order on invoices, for the `order_by(created_at)`. -/
def invoiceLE (a b : Invoice) : Prop := a.created_at ≤ b.created_at

instance : DecidableRel invoiceLE := fun a b => Nat.decLe a.created_at b.created_at

/-- Chronological order on payments, for the `order_by(created_at)`. -/
def paymentLE (a b : Payment) : Prop := a.created_at ≤ b.created_at

instance : DecidableRel paymentLE := fun a b => Nat.decLe a.created_at b.created_at

/-- Debit row built from a non-cancelled invoice. -/
def invoiceEntry (inv : Invoice) : LedgerEntry :=
  { date := inv.created_at, ty := "invoice", reference := inv.invoice_number,
    debit := inv.total, credit := 0, sort_key := inv.created_at }

/-- Row built from a customer payment: a credit for type `received`, a
debit (tagged `refund`) for every other type. -/
def customerPaymentEntry (p : Payment) : LedgerEntry :=
  { date := p.created_at,
    ty := if p.payment_type = "received" then "payment" else "refund",
    reference := "PMT-" ++ (p.id.take 8).toUpper,
    debit := if p.payment_type = "received" then 0 else p.amount,
    credit := if p.payment_type = "received" then p.amount else 0,
    sort_key := p.created_at }

/-- Second pass of the statement builder: walk the sorted rows
accumulating `balance += debit - credit` and stamp each row. -/
def stampBalances (balance : ℚ) : List LedgerEntry → List LedgerEntry
  | [] => []
  | e :: rest =>
    let b := balance + e.debit - e.credit
    { e with running_balance := b } :: stampBalances b rest

/-- Summary block of a customer statement. -/
structure LedgerSummary where
  total_invoiced : ℚ
  total_paid : ℚ
  total_refunded : ℚ
  outstanding : ℚ
  deriving Repr, DecidableEq

/-- Result of `get_customer_ledger`. -/
structure CustomerLedger where
  transactions : List LedgerEntry
  summary : LedgerSummary
  unpaid_invoices : List Invoice
  deriving Repr, DecidableEq

/-- Model of `get_customer_ledger` from `app/ledger_service.py`.  The
two `order_by(created_at)` queries and Python's stable `list.sort` are
modelled by the stable `List.insertionSort`. -/
def get_customer_ledger (st : DBState) (company_id customer_id : String) :
    Except Err CustomerLedger :=
  match findCustomer st company_id customer_id with
  | none => .error (.notFound "Customer not found")
  | some _ =>
    let invoices := (st.invoices.filter (fun i => i.customer_id == some customer_id && i.status != "cancelled")).insertionSort invoiceLE
    let payments := (st.payments.filter (fun p => p.customer_id == some customer_id)).insertionSort paymentLE
    let combined := invoices.map invoiceEntry ++ payments.map customerPaymentEntry
    let transactions := stampBalances 0 (combined.insertionSort entryLE)
    let total_invoiced := ((transactions.filter (fun t => t.ty == "invoice")).map LedgerEntry.debit).sum
    let total_paid := ((transactions.filter (fun t => t.ty == "payment")).map LedgerEntry.credit).sum
    let total_refunded := ((transactions.filter (fun t => t.ty == "refund")).map LedgerEntry.debit).sum
    let summary : LedgerSummary :=
      { total_invoiced := total_invoiced, total_paid := total_paid,
        total_refunded := total_refunded,
        outstanding := total_invoiced - total_paid + total_refunded }
    let unpaid := invoices.filter (fun i => i.status == "unpaid" || i.status == "partially_paid")
    .ok { transactions := transactions, summary := summary, unpaid_invoices := unpaid }

/-!
Concrete scenarios used by the example clauses, witnesses and
counterexamples below.
-/

/-- Invoice with total 1000 used by the overpayment scenario. -/
def c1Inv : Invoice :=
  { id := "inv1", company_id := "co", customer_id := some "cust1",
    invoice_number := "INV-00001", total := 1000, created_at := 1 }

/-- Existing received payment of 700 against `c1Inv`. -/
def c1Pay700 : Payment :=
  { id := "p700", company_id := "co", customer_id := some "cust1",
    invoice_id := some "inv1", amount := 700, payment_type := "received",
    created_at := 2 }

/-- State for the overpayment scenario: one customer, one invoice with
total 1000, one received payment of 700. -/
def c1State : DBState :=
  { customers := [{ id := "cust1", company_id := "co", name := "Asha" }],
    invoices := [c1Inv], payments := [c1Pay700] }

/-- Payment request of a given amount against `c1Inv`. -/
def c1Req (a : ℚ) : PaymentCreate :=
  { customer_id := "cust1", invoice_id := some "inv1", amount := a }

/-- Helper lemma: a successful `log_stock_movement` returns exactly the
input staged rows extended with the canonical new row. -/
theorem log_stock_movement_ok (movements : List StockMovement) (company_id : String)
    (product_id raw_material_id : Option String) (movement_type : String)
    (quantity_change : ℚ) (reference_type reference_id : String)
    (notes : Option String) (pr : List StockMovement × StockMovement)
    (h : log_stock_movement movements company_id product_id raw_material_id
      movement_type quantity_change reference_type reference_id notes = .ok pr) :
    pr = (movements ++ [mkStockMovement company_id product_id raw_material_id
            movement_type quantity_change reference_type reference_id notes],
          mkStockMovement company_id product_id raw_material_id movement_type
            quantity_change reference_type reference_id notes) := by
  unfold log_stock_movement at h
  split_ifs at h
  cases h
  rfl

/-- C6: `log_stock_movement` fails with a `ValidationError` — staging
nothing — whenever both of `product_id`/`raw_material_id` are set, or
neither is, or the movement type is not one of the five recognized
kinds; on success it stages exactly one row in the caller's current
transaction (returned to the caller together with the staged list, never
committed here). -/
theorem record_movement_validation (movements : List StockMovement)
    (company_id : String) (product_id raw_material_id : Option String)
    (movement_type : String) (quantity_change : ℚ)
    (reference_type reference_id : String) (notes : Option String) :
    (((truthy product_id && truthy raw_material_id) = true ∨
      (!truthy product_id && !truthy raw_material_id) = true ∨
      movement_type ∉ VALID_MOVEMENT_TYPES) →
      ∃ d, log_stock_movement movements company_id product_id raw_material_id
        movement_type quantity_change reference_type reference_id notes =
          .error (.validation d))
    ∧ (∀ pr, log_stock_movement movements company_id product_id raw_material_id
        movement_type quantity_change reference_type reference_id notes = .ok pr →
        pr.1 = movements ++ [pr.2]) := by
  constructor
  · intro h
    unfold log_stock_movement
    by_cases h1 : movement_type ∉ VALID_MOVEMENT_TYPES
    · rw [if_pos h1]; exact ⟨_, rfl⟩
    · rw [if_neg h1]
      by_cases h2 : (truthy product_id && truthy raw_material_id) = true
      · rw [if_pos h2]; exact ⟨_, rfl⟩
      · rw [if_neg h2]
        by_cases h3 : (!truthy product_id && !truthy raw_material_id) = true
        · rw [if_pos h3]; exact ⟨_, rfl⟩
        · rw [if_neg h3]
          rcases h with h | h | h
          · exact absurd h h2
          · exact absurd h h3
          · exact absurd h h1
  · intro pr h
    rw [log_stock_movement_ok movements company_id product_id raw_material_id
      movement_type quantity_change reference_type reference_id notes pr h]

/-- Witness for C6: both ids set triggers the validation failure at a
concrete call. -/
theorem record_movement_validation_witness :
    ∃ d, log_stock_movement [] "co" (some "p1") (some "r1") "sale" 1 "invoice"
      "ref1" none = .error (.validation d) :=
  (record_movement_validation [] "co" (some "p1") (some "r1") "sale" 1 "invoice"
    "ref1" none).1 (Or.inl (by decide))

/-- Purchase with total 800 used by the settlement witness. -/
def c2Pur : Purchase :=
  { id := "po1", company_id := "co", supplier_id := "sup1",
    purchase_number := "PO-00001", total_amount := 800 }

/-- Zero-total invoice used by the settlement counterexample. -/
def c2Inv : Invoice :=
  { id := "inv0", company_id := "co", customer_id := some "cust1", total := 0 }

/-- State for the settlement counterexample: one customer and one
zero-total unpaid invoice with no payments. -/
def c2State : DBState :=
  { customers := [{ id := "cust1", company_id := "co" }], invoices := [c2Inv] }

/-- Zero-amount received payment request against the zero-total invoice. -/
def c2Req : PaymentCreate :=
  { customer_id := "cust1", invoice_id := some "inv0", amount := 0 }

/-- C2 (amended): after settlement recomputation the stored status is a
pure function of the payment history, computed with paid-first
precedence — `paid` when net_paid ≥ total, else `partially_paid` when
net_paid > 0, else `unpaid` — which agrees with the claim's three
thresholds whenever total > 0; recomputing twice over the same payment
history yields the same result.  Both the invoice and the purchase
engines are covered. -/
theorem settle_status_spec (ps : List Payment) (inv : Invoice) (pur : Purchase) :
    ((settleInvoice ps inv).status =
      (if invoiceNetPaid ps inv.id ≥ inv.total then "paid"
       else if invoiceNetPaid ps inv.id > 0 then "partially_paid" else "unpaid"))
    ∧ settleInvoice ps (settleInvoice ps inv) = settleInvoice ps inv
    ∧ (0 < inv.total →
        (((settleInvoice ps inv).status = "paid" ↔ invoiceNetPaid ps inv.id ≥ inv.total)
         ∧ ((settleInvoice ps inv).status = "partially_paid" ↔
              0 < invoiceNetPaid ps inv.id ∧ invoiceNetPaid ps inv.id < inv.total)
         ∧ ((settleInvoice ps inv).status = "unpaid" ↔ invoiceNetPaid ps inv.id ≤ 0)))
    ∧ ((settlePurchase ps pur).status =
      (if purchaseNetPaid ps pur.id ≥ pur.total_amount then "paid"
       else if purchaseNetPaid ps pur.id > 0 then "partially_paid" else "unpaid"))
    ∧ settlePurchase ps (settlePurchase ps pur) = settlePurchase ps pur
    ∧ (0 < pur.total_amount →
        (((settlePurchase ps pur).status = "paid" ↔ purchaseNetPaid ps pur.id ≥ pur.total_amount)
         ∧ ((settlePurchase ps pur).status = "partially_paid" ↔
              0 < purchaseNetPaid ps pur.id ∧ purchaseNetPaid ps pur.id < pur.total_amount)
         ∧ ((settlePurchase ps pur).status = "unpaid" ↔ purchaseNetPaid ps pur.id ≤ 0))) := by
  refine ⟨?_, ?_, ?_, ?_, ?_, ?_⟩
  · unfold settleInvoice
    split_ifs <;> rfl
  · unfold settleInvoice
    split_ifs <;> simp_all
  · intro htot
    unfold settleInvoice
    split_ifs with h1 h2 <;> refine ⟨?_, ?_, ?_⟩ <;> simp <;> push_neg at * <;>
      first
        | linarith
        | (constructor <;> linarith)
        | (intro hx; linarith)
  · unfold settlePurchase
    split_ifs <;> rfl
  · unfold settlePurchase
    split_ifs <;> simp_all
  · intro htot
    unfold settlePurchase
    split_ifs with h1 h2 <;> refine ⟨?_, ?_, ?_⟩ <;> simp <;> push_neg at * <;>
      first
        | linarith
        | (constructor <;> linarith)
        | (intro hx; linarith)

/-- Counterexample for C2 as stated: on a zero-total invoice a
zero-amount received payment is accepted, net_paid is 0 (≤ 0, so the
claim requires status `unpaid`), yet recomputation stores `paid`. -/
theorem settle_thresholds_counterexample :
    (receive_payment c2State "co" c2Req).toOption.map
        (fun pr => (invoiceNetPaid pr.1.payments "inv0", pr.1.invoices.map Invoice.status)) =
      some (0, ["paid"]) ∧
    (settleInvoice [] c2Inv).status = "paid" ∧ invoiceNetPaid [] c2Inv.id ≤ 0 := by
  have ht : truthy (some "inv0") = true := by decide
  have hne : ("received" : String) ≠ "refund" := by decide
  refine ⟨?_, ?_, ?_⟩ <;>
    norm_num [receive_payment, checkInvoiceForPayment, findCustomer, findInvoice,
      invoiceNetPaid, invoiceReceived, invoiceRefunded, paymentSum, c2State, c2Inv,
      c2Req, ht, hne, mkPayment, List.filter_cons, Except.toOption,
      update_invoice_status_calc, settleInvoice]

/-- Witness for C2: the threshold equivalences at a positive-total
invoice and purchase with a concrete payment history. -/
theorem settle_status_spec_witness :
    (0 : ℚ) < c1Inv.total ∧
    ((settleInvoice c1State.payments c1Inv).status = "partially_paid" ↔
      0 < invoiceNetPaid c1State.payments c1Inv.id ∧
        invoiceNetPaid c1State.payments c1Inv.id < c1Inv.total) :=
  ⟨by decide,
    ((settle_status_spec c1State.payments c1Inv c2Pur).2.2.1 (by decide)).2.1⟩

/-- Unpaid invoice with total 100 used by the direct-status-write
counterexample; its tenant has recorded no payments at all. -/
def c10Inv : Invoice := { id := "invX", company_id := "co", total := 100 }

/-- State with a single unpaid invoice and an empty payments table. -/
def c10State : DBState := { invoices := [c10Inv] }

/-- C10 (amended): the PATCH status endpoint sets the status field
directly — to any of the four pattern-allowed values, `paid` included —
without writing any payment and without running settlement
recomputation. -/
theorem direct_status_update_spec (st : DBState) (cid iid s : String)
    (inv : Invoice) (hfind : findInvoice st cid iid = some inv)
    (hs : s ∈ statusPattern) :
    ∃ st2, update_invoice_status st cid iid s = .ok (st2, s) ∧
      st2.payments = st.payments ∧
      st2.invoices = st.invoices.map
        (fun i => if i.id == iid && i.company_id == cid then { i with status := s } else i) := by
  unfold update_invoice_status
  rw [if_pos hs, hfind]
  exact ⟨_, rfl, rfl, rfl⟩

/-- Counterexample for C10 as stated: with zero payments on record the
endpoint marks the invoice `paid`, while settlement recomputation over
the same (empty) payment history would store `unpaid` — so a non-payment
operation does set the status. -/
theorem direct_status_update_counterexample :
    (update_invoice_status c10State "co" "invX" "paid").toOption.map
        (fun pr => (pr.1.invoices.map Invoice.status, pr.1.payments)) =
      some (["paid"], []) ∧
    (settleInvoice c10State.payments c10Inv).status = "unpaid" := by
  refine ⟨by decide, ?_⟩
  norm_num [settleInvoice, invoiceNetPaid, invoiceReceived, invoiceRefunded,
    paymentSum, c10State, c10Inv]

/-- Witness for C10: the direct write at the concrete state. -/
theorem direct_status_update_spec_witness :
    ∃ st2, update_invoice_status c10State "co" "invX" "paid" = .ok (st2, "paid") ∧
      st2.payments = c10State.payments ∧
      st2.invoices = c10State.invoices.map
        (fun i => if i.id == "invX" && i.company_id == "co" then { i with status := "paid" } else i) :=
  direct_status_update_spec c10State "co" "invX" "paid" c10Inv rfl (by decide)

/-- State with one customer and no invoices, for the non-positive-amount
scenario. -/
def c8State : DBState := { customers := [{ id := "cust1", company_id := "co" }] }

/-- Payment request with a negative amount and no invoice. -/
def c8Req : PaymentCreate := { customer_id := "cust1", amount := -50 }

/-- C8 (amended): neither `PaymentCreate` nor the payment services
validate amount positivity — `receive_payment` and `pay_supplier` accept
a non-positive amount and persist the Payment row (subject only to the
overpayment cap when a document is named). -/
theorem nonpositive_amount_accepted :
    (∀ (st : DBState) (cid : String) (data : PaymentCreate) (c : Customer),
      findCustomer st cid data.customer_id = some c →
      truthy data.invoice_id = false →
      data.amount ≤ 0 →
      ∃ pr, receive_payment st cid data = .ok pr ∧
        pr.1.payments = st.payments ++ [pr.2] ∧ pr.2.amount = data.amount)
    ∧ (∀ (st : DBState) (cid : String) (data : SupplierPaymentCreate) (s : Supplier),
      findSupplier st cid data.supplier_id = some s →
      truthy data.purchase_id = false →
      data.amount ≤ 0 →
      ∃ pr, pay_supplier st cid data = .ok pr ∧
        pr.1.payments = st.payments ++ [pr.2] ∧ pr.2.amount = data.amount) := by
  constructor
  · intro st cid data c hc hti _
    simp only [receive_payment, checkInvoiceForPayment, hc, hti, Bool.false_eq_true,
      if_false]
    exact ⟨_, rfl, rfl, rfl⟩
  · intro st cid data s hs hti _
    simp only [pay_supplier, checkPurchaseForPayment, hs, hti, Bool.false_eq_true,
      if_false]
    exact ⟨_, rfl, rfl, rfl⟩

/-- Counterexample for C8 as stated: a payment of −50 is accepted and
persisted rather than rejected with a validation error. -/
theorem nonpositive_amount_counterexample :
    c8Req.amount ≤ 0 ∧
    (receive_payment c8State "co" c8Req).toOption.map
        (fun pr => pr.1.payments.map Payment.amount) = some [-50] := by
  constructor
  · norm_num [c8Req]
  · norm_num [receive_payment, checkInvoiceForPayment, findCustomer, c8State,
      c8Req, truthy, mkPayment, Except.toOption]

/-- Witness for C8: the negative-amount request accepted at the concrete
state. -/
theorem nonpositive_amount_accepted_witness :
    ∃ pr, receive_payment c8State "co" c8Req = .ok pr ∧
      pr.1.payments = c8State.payments ++ [pr.2] ∧ pr.2.amount = c8Req.amount :=
  nonpositive_amount_accepted.1 c8State "co" c8Req ⟨"cust1", "co", ""⟩ rfl rfl
    (by norm_num [c8Req])

/-- Invoice with no customer reference, for the ownership scenario. -/
def c9Inv : Invoice :=
  { id := "inv9", company_id := "co", customer_id := none, total := 100 }

/-- State with one customer and one customerless invoice. -/
def c9State : DBState :=
  { customers := [{ id := "cust1", company_id := "co" }], invoices := [c9Inv] }

/-- Payment request from `cust1` naming the customerless invoice. -/
def c9Req : PaymentCreate :=
  { customer_id := "cust1", invoice_id := some "inv9", amount := 50 }

/-- Invoice owned by `cust2`, for the ownership witness. -/
def c9WInv : Invoice :=
  { id := "invW", company_id := "co", customer_id := some "cust2", total := 100 }

/-- State with two customers and `cust2`'s invoice. -/
def c9WState : DBState :=
  { customers := [{ id := "cust1", company_id := "co" }, { id := "cust2", company_id := "co" }],
    invoices := [c9WInv] }

/-- Payment request from `cust1` naming `cust2`'s invoice. -/
def c9WReq : PaymentCreate :=
  { customer_id := "cust1", invoice_id := some "invW", amount := 10 }

/-- C9 (amended): the ownership check fires — aborting the transaction
with no Payment persisted — only when the named invoice's `customer_id`
is set (truthy) and differs from the paying customer; for purchases the
supplier match is checked unconditionally. -/
theorem ownership_check_spec :
    (∀ (st : DBState) (cid : String) (data : PaymentCreate) (c : Customer)
        (iid : String) (inv : Invoice),
      findCustomer st cid data.customer_id = some c →
      data.invoice_id = some iid →
      truthy data.invoice_id = true →
      findInvoice st cid iid = some inv →
      truthy inv.customer_id = true →
      inv.customer_id ≠ some data.customer_id →
      runTx st (receive_payment st cid data) =
        (st, .error (.ownership "Invoice does not belong to this customer")))
    ∧ (∀ (st : DBState) (cid : String) (data : SupplierPaymentCreate) (s : Supplier)
        (pid : String) (pur : Purchase),
      findSupplier st cid data.supplier_id = some s →
      data.purchase_id = some pid →
      truthy data.purchase_id = true →
      findPurchase st cid pid = some pur →
      pur.supplier_id ≠ data.supplier_id →
      runTx st (pay_supplier st cid data) =
        (st, .error (.ownership "Purchase does not belong to this supplier"))) := by
  constructor
  · intro st cid data c iid inv hc hid hti hinv hcust hne
    rw [hid] at hti
    simp only [receive_payment, checkInvoiceForPayment, hc, hid, hti, hinv,
      if_true, if_pos (And.intro hcust hne), runTx]
  · intro st cid data s pid pur hs hid hti hpur hne
    rw [hid] at hti
    simp only [pay_supplier, checkPurchaseForPayment, hs, hid, hti, hpur,
      if_true, if_pos hne, runTx]

/-- Counterexample for C9 as stated: the customerless invoice `inv9`
does not belong to `cust1`, yet `cust1`'s payment naming it is accepted
and persisted instead of failing with an ownership error. -/
theorem ownership_null_customer_counterexample :
    c9Inv.customer_id = none ∧ c9Req.invoice_id = some "inv9" ∧
    (receive_payment c9State "co" c9Req).toOption.map
        (fun pr => pr.1.payments.length) = some 1 := by
  refine ⟨rfl, rfl, ?_⟩
  have ht : truthy (some "inv9") = true := by decide
  have hie : ("inv9".isEmpty) = false := by decide
  have hne : ("received" : String) ≠ "refund" := by decide
  norm_num [receive_payment, checkInvoiceForPayment, findCustomer, findInvoice,
    invoiceNetPaid, invoiceReceived, invoiceRefunded, paymentSum, c9State, c9Inv,
    c9Req, ht, hie, hne, truthy, mkPayment, List.filter_cons, Except.toOption,
    update_invoice_status_calc, settleInvoice]

/-- Witness for C9: a payment from `cust1` against `cust2`'s invoice is
rejected with the ownership error and persists nothing. -/
theorem ownership_check_spec_witness :
    runTx c9WState (receive_payment c9WState "co" c9WReq) =
      (c9WState, .error (.ownership "Invoice does not belong to this customer")) :=
  ownership_check_spec.1 c9WState "co" c9WReq ⟨"cust1", "co", ""⟩ "invW" c9WInv
    rfl rfl (by decide) rfl (by decide) (by decide)

/-- Helper lemma: settlement recomputation never touches the payments
table. -/
theorem update_invoice_status_calc_payments (st : DBState) (iid : String) :
    (update_invoice_status_calc st iid).payments = st.payments := by
  unfold update_invoice_status_calc
  cases st.invoices.find? (fun i => i.id == iid) <;> rfl

/-- Helper lemma: when the overpayment guard fires, `receive_payment`
returns exactly the overpayment error. -/
theorem receive_payment_overpay_eq (st : DBState) (cid : String)
    (data : PaymentCreate) (c : Customer) (iid : String) (inv : Invoice)
    (hc : findCustomer st cid data.customer_id = some c)
    (hid : data.invoice_id = some iid)
    (hti : truthy data.invoice_id = true)
    (hinv : findInvoice st cid iid = some inv)
    (hown : ¬(truthy inv.customer_id = true ∧ inv.customer_id ≠ some data.customer_id))
    (hguard : data.payment_type = "received" ∧
      invoiceNetPaid st.payments iid + data.amount > inv.total) :
    receive_payment st cid data =
      .error (.overpayment inv.total (invoiceNetPaid st.payments iid)
        (inv.total - invoiceNetPaid st.payments iid)) := by
  rw [hid] at hti
  simp only [receive_payment, checkInvoiceForPayment, hc, hid, hti, hinv,
    if_true, if_neg hown, if_pos hguard]

/-- Helper lemma: when the customer exists and every invoice-side check
passes, `receive_payment` appends the canonical payment row and reruns
the settlement recomputation. -/
theorem receive_payment_ok_eq (st : DBState) (cid : String)
    (data : PaymentCreate) (c : Customer) (iid : String) (inv : Invoice)
    (hc : findCustomer st cid data.customer_id = some c)
    (hid : data.invoice_id = some iid)
    (hti : truthy data.invoice_id = true)
    (hinv : findInvoice st cid iid = some inv)
    (hown : ¬(truthy inv.customer_id = true ∧ inv.customer_id ≠ some data.customer_id))
    (hguard : ¬(data.payment_type = "received" ∧
      invoiceNetPaid st.payments iid + data.amount > inv.total)) :
    receive_payment st cid data =
      .ok (update_invoice_status_calc
            { st with payments := st.payments ++ [mkPayment cid data] } iid,
          mkPayment cid data) := by
  rw [hid] at hti
  simp only [receive_payment, checkInvoiceForPayment, hc, hid, hti, hinv,
    if_true, if_neg hown, if_neg hguard]

/-- C1: for a received payment against an invoice, when net_paid + amount
strictly exceeds the invoice total the call aborts with an overpayment
error carrying total, already-paid, and max-payable = total − net_paid,
persisting no Payment row; when net_paid + amount ≤ total the payment
succeeds and is appended; non-received (refund) payments are never
subject to the cap.  Concretely, on total 1000 with 700 already
received, a request of 400 fails reporting max-payable 300, and a
request of 300 succeeds and flips the status to `paid`. -/
theorem overpayment_guard (st : DBState) (cid : String) (data : PaymentCreate)
    (c : Customer) (iid : String) (inv : Invoice)
    (hc : findCustomer st cid data.customer_id = some c)
    (hid : data.invoice_id = some iid)
    (hti : truthy data.invoice_id = true)
    (hinv : findInvoice st cid iid = some inv)
    (hown : ¬(truthy inv.customer_id = true ∧ inv.customer_id ≠ some data.customer_id)) :
    (data.payment_type = "received" →
      invoiceNetPaid st.payments iid + data.amount > inv.total →
      runTx st (receive_payment st cid data) =
        (st, .error (.overpayment inv.total (invoiceNetPaid st.payments iid)
          (inv.total - invoiceNetPaid st.payments iid))))
    ∧ (invoiceNetPaid st.payments iid + data.amount ≤ inv.total →
      ∃ pr, receive_payment st cid data = .ok pr ∧
        pr.1.payments = st.payments ++ [pr.2] ∧ pr.2.amount = data.amount ∧
        pr.2.payment_type = data.payment_type)
    ∧ (data.payment_type ≠ "received" →
      ∃ pr, receive_payment st cid data = .ok pr ∧
        pr.1.payments = st.payments ++ [pr.2] ∧ pr.2.amount = data.amount)
    ∧ receive_payment c1State "co" (c1Req 400) = .error (.overpayment 1000 700 300)
    ∧ (receive_payment c1State "co" (c1Req 300)).toOption.map
        (fun pr => (pr.1.invoices.map Invoice.status, pr.1.payments.length)) =
      some (["paid"], 2) := by
  have hne2 : ("received" : String) ≠ "refund" := by decide
  have hnp : invoiceNetPaid c1State.payments "inv1" = 700 := by
    norm_num [invoiceNetPaid, invoiceReceived, invoiceRefunded, paymentSum,
      c1State, c1Pay700, List.filter_cons, hne2]
  refine ⟨?_, ?_, ?_, ?_, ?_⟩
  · intro hrec hover
    rw [receive_payment_overpay_eq st cid data c iid inv hc hid hti hinv hown
      (And.intro hrec hover)]
    rfl
  · intro hle
    have hguard : ¬(data.payment_type = "received" ∧
        invoiceNetPaid st.payments iid + data.amount > inv.total) := by
      rintro ⟨_, h2⟩
      linarith
    rw [receive_payment_ok_eq st cid data c iid inv hc hid hti hinv hown hguard]
    refine ⟨_, rfl, ?_, rfl, rfl⟩
    simp [update_invoice_status_calc_payments]
  · intro hnotrec
    have hguard : ¬(data.payment_type = "received" ∧
        invoiceNetPaid st.payments iid + data.amount > inv.total) := by
      rintro ⟨h1, _⟩
      exact hnotrec h1
    rw [receive_payment_ok_eq st cid data c iid inv hc hid hti hinv hown hguard]
    refine ⟨_, rfl, ?_, rfl⟩
    simp [update_invoice_status_calc_payments]
  · rw [receive_payment_overpay_eq c1State "co" (c1Req 400) ⟨"cust1", "co", "Asha"⟩
      "inv1" c1Inv rfl rfl (by decide) rfl (by decide)
      (And.intro rfl (by rw [hnp]; norm_num [c1Req, c1Inv])), hnp]
    norm_num [c1Inv]
  · have hguard : ¬((c1Req 300).payment_type = "received" ∧
        invoiceNetPaid c1State.payments "inv1" + (c1Req 300).amount > c1Inv.total) := by
      rw [hnp]
      norm_num [c1Req, c1Inv]
    rw [receive_payment_ok_eq c1State "co" (c1Req 300) ⟨"cust1", "co", "Asha"⟩
      "inv1" c1Inv rfl rfl (by decide) rfl (by decide) hguard]
    have hnp2 : invoiceNetPaid
        (c1State.payments ++ [mkPayment "co" (c1Req 300)]) "inv1" = 1000 := by
      norm_num [invoiceNetPaid, invoiceReceived, invoiceRefunded, paymentSum,
        c1State, c1Pay700, mkPayment, c1Req, List.filter_cons, hne2]
    simp only [c1State, mkPayment, c1Req, List.cons_append, List.nil_append] at hnp2
    norm_num [Except.toOption, update_invoice_status_calc, settleInvoice, hnp2,
      c1State, c1Inv, mkPayment, c1Req]

/-- Witness for C1: the 400-rupee request against the 1000-total invoice
with 700 already received aborts with the overpayment error and
persists nothing. -/
theorem overpayment_guard_witness :
    runTx c1State (receive_payment c1State "co" (c1Req 400)) =
      (c1State, .error (.overpayment c1Inv.total
        (invoiceNetPaid c1State.payments "inv1")
        (c1Inv.total - invoiceNetPaid c1State.payments "inv1"))) := by
  have hne2 : ("received" : String) ≠ "refund" := by decide
  have hgt : invoiceNetPaid c1State.payments "inv1" + (c1Req 400).amount >
      c1Inv.total := by
    norm_num [invoiceNetPaid, invoiceReceived, invoiceRefunded, paymentSum,
      c1State, c1Pay700, c1Req, c1Inv, List.filter_cons, hne2]
  exact (overpayment_guard c1State "co" (c1Req 400) ⟨"cust1", "co", "Asha"⟩
    "inv1" c1Inv rfl rfl (by decide) rfl (by decide)).1 rfl hgt

/-- Cost price a production item is priced at: the `cost_price` of the
raw material as found at consumption time (0 if absent, which cannot
happen on the success path). -/
def rmCost (rms : List RawMaterial) (company_id rid : String) : ℚ :=
  ((findRawMaterial rms company_id rid).map RawMaterial.cost_price).getD 0

/-- Helper lemma: raw-material lookup commutes with a pointwise update
that preserves ids and tenants. -/
theorem findRawMaterial_map (rms : List RawMaterial) (cid rid : String)
    (g : RawMaterial → RawMaterial)
    (hid : ∀ r, (g r).id = r.id) (hco : ∀ r, (g r).company_id = r.company_id) :
    findRawMaterial (rms.map g) cid rid = (findRawMaterial rms cid rid).map g := by
  unfold findRawMaterial
  induction rms with
  | nil => rfl
  | cons r rest ih =>
    simp only [List.map_cons, List.find?, hid, hco]
    cases hpa : (r.id == rid && r.company_id == cid) with
    | true => rfl
    | false => simpa using ih

/-- Helper lemma: the consumption-time cost is unchanged by stock-only
updates of the raw-material table. -/
theorem rmCost_map (rms : List RawMaterial) (cid rid : String)
    (g : RawMaterial → RawMaterial)
    (hid : ∀ r, (g r).id = r.id) (hco : ∀ r, (g r).company_id = r.company_id)
    (hcp : ∀ r, (g r).cost_price = r.cost_price) :
    rmCost (rms.map g) cid rid = rmCost rms cid rid := by
  unfold rmCost
  rw [findRawMaterial_map rms cid rid g hid hco]
  cases findRawMaterial rms cid rid with
  | none => rfl
  | some r => simp [hcp]

/-- Helper lemma: a successful consumption loop accumulates exactly the
sum of quantity_used × consumption-time cost_price over its items. -/
theorem consumeItems_cost (cid bid bnum pname : String) :
    ∀ (l : List ProductionItemReq) (s s2 : ProdLoopState),
    consumeItems cid bid bnum pname s l = .ok s2 →
    s2.total_cost = s.total_cost +
      ((l.map (fun it => it.quantity_used * rmCost s.rawMaterials cid it.raw_material_id)).sum) := by
  intro l
  induction l with
  | nil =>
    intro s s2 h
    cases h
    simp
  | cons it rest ih =>
    intro s s2 h
    unfold consumeItems at h
    split at h
    · exact absurd h (by simp)
    · rename_i raw_mat hf
      split at h
      · exact absurd h (by simp)
      · rename_i hq
        split at h
        · exact absurd h (by simp)
        · rename_i pr hl
          have hrec := ih _ _ h
          have hpres : ∀ it2 : ProductionItemReq,
              rmCost (s.rawMaterials.map (fun r =>
                if r.id == raw_mat.id && r.company_id == cid then
                  { r with stock_quantity := r.stock_quantity - it.quantity_used }
                else r)) cid it2.raw_material_id =
              rmCost s.rawMaterials cid it2.raw_material_id := by
            intro it2
            refine rmCost_map s.rawMaterials cid it2.raw_material_id _ ?_ ?_ ?_ <;>
              intro r <;> split <;> rfl
          simp only [hpres] at hrec
          have hcost : raw_mat.cost_price = rmCost s.rawMaterials cid it.raw_material_id := by
            rw [rmCost, hf]
            rfl
          rw [hrec, List.map_cons, List.sum_cons]
          rw [hcost]
          ring

/-- Helper lemma: the consumption loop processes an appended item list
sequentially, threading the loop state. -/
theorem consumeItems_append (cid bid bnum pname : String)
    (l1 l2 : List ProductionItemReq) (s : ProdLoopState) :
    consumeItems cid bid bnum pname s (l1 ++ l2) =
      (match consumeItems cid bid bnum pname s l1 with
       | .error e => .error e
       | .ok s1 => consumeItems cid bid bnum pname s1 l2) := by
  induction l1 generalizing s with
  | nil => rfl
  | cons it rest ih =>
    rw [List.cons_append]
    conv_lhs => rw [consumeItems]
    conv_rhs => rw [consumeItems]
    cases hf : findRawMaterial s.rawMaterials cid it.raw_material_id with
    | none => rfl
    | some raw_mat =>
      dsimp only
      by_cases hq : raw_mat.stock_quantity < it.quantity_used
      · simp only [if_pos hq]
      · simp only [if_neg hq]
        cases hl : log_stock_movement s.movements cid none (some raw_mat.id)
            "production_out" (-it.quantity_used) "production_batch" bid
            (some ("Used in " ++ bnum ++ " for " ++ pname)) with
        | error e => rfl
        | ok pr =>
          obtain ⟨movs2, m⟩ := pr
          dsimp only
          exact ih _

/-- C7: a production request with quantity_produced ≤ 0 is rejected —
whatever else the request contains — with the whole transaction aborted,
so no stock mutation or ledger append persists; every accepted batch has
total_cost = Σ quantity_used × the material's cost_price at consumption
time and cost_per_unit = round(total_cost / quantity_produced, 2). -/
theorem production_cost_spec (st : DBState) (cid : String)
    (data : ProductionBatchCreate) :
    (data.quantity_produced ≤ 0 →
      ∃ e, create_production_batch st cid data = .error e ∧
        runTx st (create_production_batch st cid data) = (st, .error e))
    ∧ (∀ pr, create_production_batch st cid data = .ok pr →
      pr.2.total_cost = ((data.items.map
        (fun it => it.quantity_used * rmCost st.rawMaterials cid it.raw_material_id)).sum) ∧
      pr.2.cost_per_unit = round2 (pr.2.total_cost / (data.quantity_produced : ℚ))) := by
  constructor
  · intro hqp
    unfold create_production_batch
    cases hp : findProduct st.products cid data.finished_product_id with
    | none => exact ⟨_, rfl, rfl⟩
    | some product =>
      dsimp only
      by_cases hit : data.items = []
      · rw [if_pos hit]
        exact ⟨_, rfl, rfl⟩
      · rw [if_neg hit, if_pos hqp]
        exact ⟨_, rfl, rfl⟩
  · intro pr h
    unfold create_production_batch at h
    cases hp : findProduct st.products cid data.finished_product_id with
    | none =>
      rw [hp] at h
      exact absurd h (by simp)
    | some product =>
      rw [hp] at h
      dsimp only at h
      by_cases hit : data.items = []
      · rw [if_pos hit] at h
        exact absurd h (by simp)
      · rw [if_neg hit] at h
        by_cases hqp : data.quantity_produced ≤ 0
        · rw [if_pos hqp] at h
          exact absurd h (by simp)
        · rw [if_neg hqp] at h
          cases hcons : consumeItems cid ("uuid-" ++ next_batch_number st cid)
              (next_batch_number st cid) product.name
              ⟨st.rawMaterials, st.movements, st.productionItems, 0⟩ data.items with
          | error e =>
            rw [hcons] at h
            exact absurd h (by simp)
          | ok s =>
            rw [hcons] at h
            dsimp only at h
            cases hl : log_stock_movement s.movements cid (some product.id) none
                "production_in" ((data.quantity_produced : ℚ)) "production_batch"
                ("uuid-" ++ next_batch_number st cid)
                (some ("Produced in " ++ next_batch_number st cid)) with
            | error e =>
              rw [hl] at h
              exact absurd h (by simp)
            | ok pr2 =>
              rw [hl] at h
              dsimp only at h
              cases h
              have hc := consumeItems_cost cid ("uuid-" ++ next_batch_number st cid)
                (next_batch_number st cid) product.name data.items
                ⟨st.rawMaterials, st.movements, st.productionItems, 0⟩ s hcons
              constructor
              · simpa using hc
              · rfl

/-- Raw materials for the production witness scenarios: flour is ample,
sugar is short. -/
def c5Flour : RawMaterial :=
  { id := "rm1", company_id := "co", name := "flour", stock_quantity := 10, cost_price := 2 }

/-- Sugar with stock 5, too little for the failing request. -/
def c5Sugar : RawMaterial :=
  { id := "rm2", company_id := "co", name := "sugar", stock_quantity := 5, cost_price := 3 }

/-- State with one finished product and the two raw materials. -/
def c5State : DBState :=
  { products := [{ id := "prod1", company_id := "co", name := "cake", price := 50, stock := 4 }],
    rawMaterials := [c5Flour, c5Sugar] }

/-- Production request demanding 9 sugar with only 5 in stock. -/
def c5Req : ProductionBatchCreate :=
  { finished_product_id := "prod1", quantity_produced := 2,
    items := [{ raw_material_id := "rm2", quantity_used := 9 },
              { raw_material_id := "rm1", quantity_used := 3 }] }

/-- C5: a production batch whose consumption hits a raw material with
insufficient stock — even after earlier items succeeded — makes the
whole call fail with the insufficient-stock error, and the transaction
rollback leaves every product and raw-material stock field unchanged and
appends zero StockMovement rows. -/
theorem production_insufficient_rollback (st : DBState) (cid : String)
    (data : ProductionBatchCreate) (product : Product)
    (pre : List ProductionItemReq) (it : ProductionItemReq)
    (rest : List ProductionItemReq) (s : ProdLoopState) (r : RawMaterial)
    (hp : findProduct st.products cid data.finished_product_id = some product)
    (hqp : ¬data.quantity_produced ≤ 0)
    (hsplit : data.items = pre ++ it :: rest)
    (hpre : consumeItems cid ("uuid-" ++ next_batch_number st cid)
      (next_batch_number st cid) product.name
      ⟨st.rawMaterials, st.movements, st.productionItems, 0⟩ pre = .ok s)
    (hf : findRawMaterial s.rawMaterials cid it.raw_material_id = some r)
    (hlow : r.stock_quantity < it.quantity_used) :
    create_production_batch st cid data =
      .error (.insufficientMaterial r.name r.stock_quantity it.quantity_used)
    ∧ runTx st (create_production_batch st cid data) =
      (st, .error (.insufficientMaterial r.name r.stock_quantity it.quantity_used))
    ∧ (runTx st (create_production_batch st cid data)).1.movements = st.movements
    ∧ (runTx st (create_production_batch st cid data)).1.rawMaterials = st.rawMaterials
    ∧ (runTx st (create_production_batch st cid data)).1.products = st.products := by
  have hne : data.items ≠ [] := by
    rw [hsplit]
    exact List.append_ne_nil_of_right_ne_nil pre (List.cons_ne_nil it rest)
  have hcons : consumeItems cid ("uuid-" ++ next_batch_number st cid)
      (next_batch_number st cid) product.name
      ⟨st.rawMaterials, st.movements, st.productionItems, 0⟩ data.items =
      .error (.insufficientMaterial r.name r.stock_quantity it.quantity_used) := by
    rw [hsplit, consumeItems_append, hpre]
    unfold consumeItems
    rw [hf]
    dsimp only
    rw [if_pos hlow]
  have hmain : create_production_batch st cid data =
      .error (.insufficientMaterial r.name r.stock_quantity it.quantity_used) := by
    unfold create_production_batch
    rw [hp]
    dsimp only
    rw [if_neg hne, if_neg hqp, hcons]
  refine ⟨hmain, ?_, ?_, ?_, ?_⟩ <;> rw [hmain] <;> rfl

/-- Witness for C5: the sugar item demands 9 with 5 in stock, the call
fails with the insufficient-stock error, and the request leaves the
state untouched. -/
theorem production_insufficient_rollback_witness :
    create_production_batch c5State "co" c5Req =
      .error (.insufficientMaterial "sugar" 5 9)
    ∧ runTx c5State (create_production_batch c5State "co" c5Req) =
      (c5State, .error (.insufficientMaterial "sugar" 5 9)) := by
  have h := production_insufficient_rollback c5State "co" c5Req
    ⟨"prod1", "co", "cake", 50, 4⟩ []
    { raw_material_id := "rm2", quantity_used := 9 }
    [{ raw_material_id := "rm1", quantity_used := 3 }]
    ⟨c5State.rawMaterials, c5State.movements, c5State.productionItems, 0⟩
    c5Sugar rfl (by norm_num [c5Req]) rfl rfl rfl (by norm_num [c5Sugar])
  exact ⟨h.1, h.2.1⟩

/-- Witness for C7: a concrete request with quantity_produced = 0 is
rejected and rolled back. -/
theorem production_cost_spec_witness :
    ∃ e, create_production_batch c5State "co"
        { finished_product_id := "prod1", quantity_produced := 0,
          items := [{ raw_material_id := "rm1", quantity_used := 1 }] } = .error e ∧
      runTx c5State (create_production_batch c5State "co"
        { finished_product_id := "prod1", quantity_produced := 0,
          items := [{ raw_material_id := "rm1", quantity_used := 1 }] }) =
        (c5State, .error e) :=
  (production_cost_spec c5State "co"
    { finished_product_id := "prod1", quantity_produced := 0,
      items := [{ raw_material_id := "rm1", quantity_used := 1 }] }).1 (by norm_num)

/-- Total quantity of a product sold across the line items of a sale. -/
def soldQty (items : List SaleItem) (pid : String) : ℤ :=
  ((items.filter (fun it => it.product_id == pid)).map SaleItem.quantity).sum

/-- Net effect of a sale on one product row: tenant products lose the
total quantity sold of their id, others are untouched. -/
def saleDec (company_id : String) (items : List SaleItem) (p : Product) : Product :=
  if p.company_id == company_id then { p with stock := p.stock - soldQty items p.id }
  else p

/-- Canonical `sale` stock movement appended for one line item. -/
def saleMov (company_id invoice_id invoice_number : String) (it : SaleItem) : StockMovement :=
  mkStockMovement company_id (some it.product_id) none "sale" (-(it.quantity : ℚ))
    "invoice" invoice_id (some ("Sold via " ++ invoice_number))

/-- Helper lemma: an empty sale leaves every product row unchanged. -/
theorem saleDec_nil (company_id : String) (p : Product) :
    saleDec company_id [] p = p := by
  unfold saleDec soldQty
  split <;> simp

/-- Helper lemma: one line-item deduction composed with the rest of the
sale equals the whole sale's deduction. -/
theorem saleDec_cons (company_id : String) (it : SaleItem) (rest : List SaleItem)
    (q : Product) :
    saleDec company_id rest
      (if q.id == it.product_id && q.company_id == company_id then
        { q with stock := q.stock - it.quantity } else q) =
    saleDec company_id (it :: rest) q := by
  unfold saleDec soldQty
  by_cases hco : q.company_id = company_id
  · by_cases hq : q.id = it.product_id
    · simp [hco, hq, List.filter_cons, sub_sub]
    · simp [hco, hq, List.filter_cons, Ne.symm hq]
  · simp [hco]

/-- Helper lemma: a successful sale loop maps the product table through
`saleDec` and appends exactly one `sale` movement per line item. -/
theorem sellItems_ok (cid iid num : String) :
    ∀ (l : List SaleItem) (s s2 : SaleLoopState),
    sellItems cid iid num s l = .ok s2 →
    s2.products = s.products.map (saleDec cid l) ∧
    s2.movements = s.movements ++ l.map (saleMov cid iid num) := by
  intro l
  induction l with
  | nil =>
    intro s s2 h
    cases h
    constructor
    · rw [show saleDec cid [] = id from funext (saleDec_nil cid), List.map_id]
    · simp
  | cons it rest ih =>
    intro s s2 h
    unfold sellItems at h
    split at h
    · exact absurd h (by simp)
    · rename_i product hf
      split at h
      · exact absurd h (by simp)
      · rename_i hstock
        split at h
        · exact absurd h (by simp)
        · rename_i movs2 m hl
          have hpq := List.find?_some (by simpa [findProduct] using hf)
          simp only [Bool.and_eq_true, beq_iff_eq] at hpq
          obtain ⟨hpid, hpco⟩ := hpq
          obtain ⟨hrec1, hrec2⟩ := ih _ _ h
          have hlog := log_stock_movement_ok s.movements cid (some product.id) none
            "sale" (-(it.quantity : ℚ)) "invoice" iid
            (some ("Sold via " ++ num)) (movs2, m) hl
          rw [Prod.mk.injEq] at hlog
          obtain ⟨hm1, _⟩ := hlog
          constructor
          · rw [hrec1]
            dsimp only
            rw [List.map_map]
            refine List.map_congr_left ?_
            intro q _
            show saleDec cid rest
              (if q.id == product.id && q.company_id == cid then
                { q with stock := q.stock - it.quantity } else q) = _
            rw [hpid]
            exact saleDec_cons cid it rest q
          · rw [hrec2]
            dsimp only
            rw [hm1, hpid]
            simp [saleMov, List.append_assoc]

/-- Helper lemma: the sale loop processes an appended item list
sequentially, threading the loop state. -/
theorem sellItems_append (cid iid num : String)
    (l1 l2 : List SaleItem) (s : SaleLoopState) :
    sellItems cid iid num s (l1 ++ l2) =
      (match sellItems cid iid num s l1 with
       | .error e => .error e
       | .ok s1 => sellItems cid iid num s1 l2) := by
  induction l1 generalizing s with
  | nil => rfl
  | cons it rest ih =>
    rw [List.cons_append]
    conv_lhs => rw [sellItems]
    conv_rhs => rw [sellItems]
    cases hf : findProduct s.products cid it.product_id with
    | none => rfl
    | some product =>
      dsimp only
      by_cases hstock : product.stock < it.quantity
      · simp only [if_pos hstock]
      · simp only [if_neg hstock]
        cases hl : log_stock_movement s.movements cid (some product.id) none
            "sale" (-(it.quantity : ℚ)) "invoice" iid
            (some ("Sold via " ++ num)) with
        | error e => rfl
        | ok pr =>
          obtain ⟨movs2, m⟩ := pr
          dsimp only
          exact ih _

/-- C4: a valid sale deducts, for every tenant product, exactly the total
quantity sold of it and appends exactly one `sale` StockMovement per line
item with quantity_change = −quantity referencing the invoice; a line
item whose quantity exceeds the product's current stock at its processing
point makes the call fail with an insufficient-stock error naming the
product and its available quantity, aborting the transaction. -/
theorem sale_stock_spec (st : DBState) (cid : String) (payload : InvoiceCreate) :
    (∀ pr, create_invoice st cid payload = .ok pr →
      pr.1.products = st.products.map (saleDec cid payload.items) ∧
      pr.1.movements = st.movements ++
        payload.items.map (saleMov cid pr.2.id pr.2.invoice_number))
    ∧ (∀ (pre : List SaleItem) (it : SaleItem) (rest : List SaleItem)
        (s : SaleLoopState) (p : Product) (rc : Option String × String),
      payload.items = pre ++ it :: rest →
      resolveCustomer st cid payload = .ok rc →
      sellItems cid ("uuid-" ++ next_invoice_number st cid)
        (next_invoice_number st cid)
        ⟨st.products, st.movements, st.invoiceItems, 0⟩ pre = .ok s →
      findProduct s.products cid it.product_id = some p →
      p.stock < it.quantity →
      create_invoice st cid payload = .error (.insufficientStock p.name p.stock)
      ∧ runTx st (create_invoice st cid payload) =
          (st, .error (.insufficientStock p.name p.stock))) := by
  constructor
  · intro pr h
    unfold create_invoice at h
    by_cases hempty : payload.items = []
    · rw [if_pos hempty] at h
      exact absurd h (by simp)
    · rw [if_neg hempty] at h
      cases hrc : resolveCustomer st cid payload with
      | error e =>
        rw [hrc] at h
        exact absurd h (by simp)
      | ok rc =>
        obtain ⟨rcid, rname⟩ := rc
        rw [hrc] at h
        dsimp only at h
        cases hsell : sellItems cid ("uuid-" ++ next_invoice_number st cid)
            (next_invoice_number st cid)
            ⟨st.products, st.movements, st.invoiceItems, 0⟩ payload.items with
        | error e =>
          rw [hsell] at h
          exact absurd h (by simp)
        | ok s =>
          rw [hsell] at h
          dsimp only at h
          cases h
          exact sellItems_ok cid ("uuid-" ++ next_invoice_number st cid)
            (next_invoice_number st cid) payload.items
            ⟨st.products, st.movements, st.invoiceItems, 0⟩ s hsell
  · intro pre it rest s p rc hsplit hrc hpre hf hstock
    have hne : payload.items ≠ [] := by
      rw [hsplit]
      exact List.append_ne_nil_of_right_ne_nil pre (List.cons_ne_nil it rest)
    obtain ⟨rcid, rname⟩ := rc
    have hsell : sellItems cid ("uuid-" ++ next_invoice_number st cid)
        (next_invoice_number st cid)
        ⟨st.products, st.movements, st.invoiceItems, 0⟩ payload.items =
        .error (.insufficientStock p.name p.stock) := by
      rw [hsplit, sellItems_append, hpre]
      unfold sellItems
      rw [hf]
      dsimp only
      rw [if_pos hstock]
    have hmain : create_invoice st cid payload =
        .error (.insufficientStock p.name p.stock) := by
      unfold create_invoice
      rw [if_neg hne, hrc]
      dsimp only
      rw [hsell]
    refine ⟨hmain, ?_⟩
    rw [hmain]
    rfl

/-- Products for the sale witness scenario: pens are plentiful, books are
short. -/
def c4State : DBState :=
  { products := [{ id := "pA", company_id := "co", name := "pen", price := 5, stock := 10 },
                 { id := "pB", company_id := "co", name := "book", price := 20, stock := 2 }] }

/-- Sale request whose first item demands 5 books with only 2 in stock. -/
def c4Req : InvoiceCreate :=
  { customer_name := "Walk-in",
    items := [{ product_id := "pB", quantity := 5 }, { product_id := "pA", quantity := 3 }] }

/-- Witness for C4: the book item demands 5 with 2 in stock, so the sale
fails naming the book and its available quantity, and the transaction
leaves the state untouched. -/
theorem sale_stock_spec_witness :
    create_invoice c4State "co" c4Req = .error (.insufficientStock "book" 2)
    ∧ runTx c4State (create_invoice c4State "co" c4Req) =
      (c4State, .error (.insufficientStock "book" 2)) :=
  (sale_stock_spec c4State "co" c4Req).2 []
    { product_id := "pB", quantity := 5 } [{ product_id := "pA", quantity := 3 }]
    ⟨c4State.products, c4State.movements, c4State.invoiceItems, 0⟩
    ⟨"pB", "co", "book", 20, 2⟩ (none, "Walk-in") rfl rfl rfl rfl (by decide)

/-- Shape of every statement row: invoices and refunds are pure debits,
payments are pure credits. -/
def okShape (e : LedgerEntry) : Prop :=
  (e.ty = "invoice" ∧ e.credit = 0) ∨ (e.ty = "payment" ∧ e.debit = 0) ∨
    (e.ty = "refund" ∧ e.credit = 0)

/-- Helper lemma: stamping preserves the debit−credit projection. -/
theorem stampBalances_map_dc (b : ℚ) (l : List LedgerEntry) :
    (stampBalances b l).map (fun e => e.debit - e.credit) =
      l.map (fun e => e.debit - e.credit) := by
  induction l generalizing b with
  | nil => rfl
  | cons e rest ih => simp [stampBalances, ih]

/-- Helper lemma: stamping preserves the sort keys. -/
theorem stampBalances_map_key (b : ℚ) (l : List LedgerEntry) :
    (stampBalances b l).map LedgerEntry.sort_key = l.map LedgerEntry.sort_key := by
  induction l generalizing b with
  | nil => rfl
  | cons e rest ih => simp [stampBalances, ih]

/-- Helper lemma: stamping commutes with taking a prefix. -/
theorem stampBalances_take (b : ℚ) (l : List LedgerEntry) (k : ℕ) :
    (stampBalances b l).take k = stampBalances b (l.take k) := by
  induction l generalizing b k with
  | nil => simp [stampBalances]
  | cons e rest ih =>
    cases k with
    | zero => rfl
    | succ k => simp [stampBalances, List.take_succ_cons, ih]

/-- Helper lemma: each stamped row carries the cumulative debit−credit
sum of its prefix, on top of the starting balance. -/
theorem stampBalances_get (l : List LedgerEntry) :
    ∀ (b : ℚ) (i : ℕ) (hi : i < (stampBalances b l).length),
    ((stampBalances b l).get ⟨i, hi⟩).running_balance =
      b + ((l.take (i+1)).map (fun e => e.debit - e.credit)).sum := by
  induction l with
  | nil =>
    intro b i hi
    simp [stampBalances] at hi
  | cons e rest ih =>
    intro b i hi
    cases i with
    | zero =>
      simp [stampBalances, List.take_succ_cons]
      ring
    | succ i =>
      have hi2 : i < (stampBalances (b + e.debit - e.credit) rest).length := by
        simpa [stampBalances] using hi
      have := ih (b + e.debit - e.credit) i hi2
      simp only [stampBalances, List.get_cons_succ, List.take_succ_cons,
        List.map_cons, List.sum_cons] at *
      rw [this]
      ring

/-- Helper lemma: the last stamped row carries the full debit−credit sum
on top of the starting balance. -/
theorem stampBalances_getLast (l : List LedgerEntry) :
    ∀ (b : ℚ) (e : LedgerEntry), (stampBalances b l).getLast? = some e →
    e.running_balance = b + (l.map (fun x => x.debit - x.credit)).sum := by
  induction l with
  | nil =>
    intro b e h
    simp [stampBalances] at h
  | cons x rest ih =>
    intro b e h
    cases rest with
    | nil =>
      simp only [stampBalances, List.getLast?_singleton, Option.some.injEq] at h
      rw [← h]
      simp
      ring
    | cons y ys =>
      have h2 : (stampBalances (b + x.debit - x.credit) (y :: ys)).getLast? = some e := by
        have hexp : stampBalances b (x :: y :: ys) =
            { x with running_balance := b + x.debit - x.credit } ::
              { y with running_balance := b + x.debit - x.credit + y.debit - y.credit } ::
                stampBalances (b + x.debit - x.credit + y.debit - y.credit) ys := rfl
        have hexp2 : stampBalances (b + x.debit - x.credit) (y :: ys) =
            { y with running_balance := b + x.debit - x.credit + y.debit - y.credit } ::
              stampBalances (b + x.debit - x.credit + y.debit - y.credit) ys := rfl
        rw [hexp, List.getLast?_cons_cons] at h
        rw [hexp2]
        exact h
      have := ih (b + x.debit - x.credit) e h2
      rw [this]
      simp
      ring

/-- Helper lemma: stamping preserves the row shape. -/
theorem stampBalances_shape (l : List LedgerEntry) :
    ∀ (b : ℚ), (∀ e ∈ l, okShape e) → ∀ e ∈ stampBalances b l, okShape e := by
  induction l with
  | nil =>
    intro b _ e he
    simp [stampBalances] at he
  | cons x rest ih =>
    intro b h e he
    rw [stampBalances] at he
    rcases List.mem_cons.mp he with he | he
    · subst he
      exact h x (List.mem_cons_self x rest)
    · exact ih _ (fun z hz => h z (List.mem_cons_of_mem x hz)) e he

/-- Helper lemma: every stamped row shares its sort key with a source
row. -/
theorem stampBalances_mem_key (l : List LedgerEntry) :
    ∀ (b : ℚ) (z : LedgerEntry), z ∈ stampBalances b l →
      ∃ e0 ∈ l, z.sort_key = e0.sort_key := by
  induction l with
  | nil =>
    intro b z hz
    simp [stampBalances] at hz
  | cons e rest ih =>
    intro b z hz
    rw [stampBalances] at hz
    rcases List.mem_cons.mp hz with hz | hz
    · exact ⟨e, List.mem_cons_self e rest, by rw [hz]⟩
    · obtain ⟨e0, he0, hk⟩ := ih _ z hz
      exact ⟨e0, List.mem_cons_of_mem e he0, hk⟩

/-- Helper lemma: stamping preserves chronological sortedness. -/
theorem stampBalances_sorted (l : List LedgerEntry) :
    ∀ (b : ℚ), List.Pairwise entryLE l → List.Pairwise entryLE (stampBalances b l) := by
  induction l with
  | nil =>
    intro b _
    exact List.Pairwise.nil
  | cons e rest ih =>
    intro b h
    rcases List.pairwise_cons.mp h with ⟨he, hrest⟩
    rw [stampBalances]
    refine List.pairwise_cons.mpr ⟨?_, ih _ hrest⟩
    intro z hz
    obtain ⟨e0, he0, hk⟩ := stampBalances_mem_key rest _ z hz
    show e.sort_key ≤ z.sort_key
    rw [hk]
    exact he e0 he0

/-- Helper lemma: on shape-respecting rows, the debit−credit total splits
into the three summary sums computed by the statement builder. -/
theorem sum_dc_of_shape : ∀ (l : List LedgerEntry), (∀ e ∈ l, okShape e) →
    (l.map (fun e => e.debit - e.credit)).sum =
      ((l.filter (fun t => t.ty == "invoice")).map LedgerEntry.debit).sum
      - ((l.filter (fun t => t.ty == "payment")).map LedgerEntry.credit).sum
      + ((l.filter (fun t => t.ty == "refund")).map LedgerEntry.debit).sum := by
  intro l
  induction l with
  | nil => simp
  | cons e rest ih =>
    intro h
    have hne1 : ("invoice" : String) ≠ "payment" := by decide
    have hne2 : ("invoice" : String) ≠ "refund" := by decide
    have hne3 : ("payment" : String) ≠ "invoice" := by decide
    have hne4 : ("payment" : String) ≠ "refund" := by decide
    have hne5 : ("refund" : String) ≠ "invoice" := by decide
    have hne6 : ("refund" : String) ≠ "payment" := by decide
    have hrest := ih (fun z hz => h z (List.mem_cons_of_mem e hz))
    rcases h e (List.mem_cons_self e rest) with ⟨hty, hz⟩ | ⟨hty, hz⟩ | ⟨hty, hz⟩ <;>
      simp [List.filter_cons, hty, hz, beq_iff_eq, hne1, hne2, hne3, hne4,
        hne5, hne6, hrest] <;> ring

/-- Invoice A of the statement example: debit 500 at time 1. -/
def c3A : Invoice :=
  { id := "ia", company_id := "co", customer_id := some "cust1",
    invoice_number := "INV-A", total := 500, created_at := 1 }

/-- Invoice B of the statement example: debit 300 at time 3. -/
def c3B : Invoice :=
  { id := "ib", company_id := "co", customer_id := some "cust1",
    invoice_number := "INV-B", total := 300, created_at := 3 }

/-- Payment P1 of the statement example: credit 200 at time 2. -/
def c3P : Payment :=
  { id := "pmt1", company_id := "co", customer_id := some "cust1",
    amount := 200, payment_type := "received", created_at := 2 }

/-- State for the statement example. -/
def c3State : DBState :=
  { customers := [{ id := "cust1", company_id := "co" }],
    invoices := [c3A, c3B], payments := [c3P] }

/-- C3: the customer statement tags each non-cancelled invoice as a pure
debit of its total and each payment as a pure credit (received) or debit
(refund), sorts by created_at ascending, stamps each row with the
cumulative debit−credit sum, and reports
outstanding = total_invoiced − total_paid + total_refunded, which also
equals the final running balance.  Concretely, for invoice A (500, t=1),
payment P1 (200, t=2) and invoice B (300, t=3), the running balances are
[500, 300, 600] and outstanding = 600. -/
theorem customer_statement_spec (st : DBState) (cid custId : String)
    (L : CustomerLedger) (h : get_customer_ledger st cid custId = .ok L) :
    (L.summary.outstanding =
      L.summary.total_invoiced - L.summary.total_paid + L.summary.total_refunded)
    ∧ List.Sorted entryLE L.transactions
    ∧ (∀ (i : ℕ) (hi : i < L.transactions.length),
        (L.transactions.get ⟨i, hi⟩).running_balance =
          ((L.transactions.take (i+1)).map (fun e => e.debit - e.credit)).sum)
    ∧ (∀ e, L.transactions.getLast? = some e →
        e.running_balance = L.summary.outstanding)
    ∧ (∀ e ∈ L.transactions, okShape e)
    ∧ (get_customer_ledger c3State "co" "cust1").toOption.map
        (fun L2 => (L2.transactions.map LedgerEntry.running_balance,
          L2.summary.outstanding)) = some ([500, 300, 600], 600) := by
  unfold get_customer_ledger at h
  cases hc : findCustomer st cid custId with
  | none =>
    rw [hc] at h
    exact absurd h (by simp)
  | some cust =>
    rw [hc] at h
    dsimp only at h
    cases h
    refine ⟨rfl, ?_, ?_, ?_, ?_, ?_⟩
    · dsimp only
      exact stampBalances_sorted _ 0 (List.sorted_insertionSort entryLE _)
    · intro i hi
      rw [stampBalances_get _ 0 i hi, zero_add, stampBalances_take,
        stampBalances_map_dc]
    · intro e he
      rw [stampBalances_getLast _ 0 e he, zero_add, ← stampBalances_map_dc 0]
      rw [sum_dc_of_shape _ ?shape]
      case shape =>
        refine stampBalances_shape _ 0 ?_
        intro z hz
        rcases List.mem_append.mp ((List.mem_insertionSort entryLE).mp hz) with hz2 | hz2
        · obtain ⟨inv, _, rfl⟩ := List.mem_map.mp hz2
          exact Or.inl ⟨rfl, rfl⟩
        · obtain ⟨p, _, rfl⟩ := List.mem_map.mp hz2
          by_cases hp : p.payment_type = "received"
          · exact Or.inr (Or.inl ⟨by simp [customerPaymentEntry, hp],
              by simp [customerPaymentEntry, hp]⟩)
          · exact Or.inr (Or.inr ⟨by simp [customerPaymentEntry, hp],
              by simp [customerPaymentEntry, hp]⟩)
    · dsimp only
      refine stampBalances_shape _ 0 ?_
      intro z hz
      rcases List.mem_append.mp ((List.mem_insertionSort entryLE).mp hz) with hz2 | hz2
      · obtain ⟨inv, _, rfl⟩ := List.mem_map.mp hz2
        exact Or.inl ⟨rfl, rfl⟩
      · obtain ⟨p, _, rfl⟩ := List.mem_map.mp hz2
        by_cases hp : p.payment_type = "received"
        · exact Or.inr (Or.inl ⟨by simp [customerPaymentEntry, hp],
            by simp [customerPaymentEntry, hp]⟩)
        · exact Or.inr (Or.inr ⟨by simp [customerPaymentEntry, hp],
            by simp [customerPaymentEntry, hp]⟩)
    · have hne : ("received" : String) ≠ "refund" := by decide
      have hne2 : ("payment" : String) ≠ "invoice" := by decide
      have hne3 : ("invoice" : String) ≠ "payment" := by decide
      have hne4 : ("invoice" : String) ≠ "refund" := by decide
      have hne5 : ("payment" : String) ≠ "refund" := by decide
      norm_num [get_customer_ledger, findCustomer, c3State, c3A, c3B, c3P,
        invoiceEntry, customerPaymentEntry, invoiceLE, paymentLE, entryLE,
        stampBalances, List.filter_cons, List.insertionSort, List.orderedInsert,
        Except.toOption, hne, hne2, hne3, hne4, hne5]

/-- Witness for C3: the example statement satisfies the outstanding
formula and its last running balance equals the outstanding amount. -/
theorem customer_statement_spec_witness :
    ∃ L, get_customer_ledger c3State "co" "cust1" = .ok L ∧
      L.summary.outstanding =
        L.summary.total_invoiced - L.summary.total_paid + L.summary.total_refunded ∧
      (∀ e, L.transactions.getLast? = some e →
        e.running_balance = L.summary.outstanding) :=
  ⟨_, rfl, (customer_statement_spec c3State "co" "cust1" _ rfl).1,
    (customer_statement_spec c3State "co" "cust1" _ rfl).2.2.2.1⟩

end BillingSaas
